import Mathlib

/-!
# eom-metadata-sidebar.c

A shallow embedding of the metadata sidebar of the image viewer
(`src/eom-metadata-sidebar.c`) and the properties of it that the
specification states.

The sidebar is event wiring over a widget toolkit.  The embedding keeps the
private structure of the widget field by field, and adds the three pieces of
toolkit state the functions of the file act on: the table of signal handlers
that are connected, the references taken with `g_object_ref` and not yet
released, and a trace of the calls of `eom_metadata_sidebar_update` and of
`g_object_notify`.  Everything the file only consumes (image, file and
metadata accessors) is a field of `World`.
-/

namespace Eom

/-! ## Data model -/

/-- An `EomImage *`, by identity; a nullable pointer is an `Option`. -/
abbrev EomImage := Nat

/-- An `EomWindow *`, by identity. -/
abbrev EomWindow := Nat

/-- A `GFile *`, by identity. -/
abbrev GFile := Nat

/-- An `ExifData *`, by identity. -/
abbrev ExifData := Nat

/-- The objects the sidebar refers to: images, the parent window, the scroll
view of a window (`eom_window_get_view`) and the folder label of the
template. -/
inductive GObject where
  | image (img : EomImage)
  | window (win : EomWindow)
  | view (win : EomWindow)
  | folder_label
  deriving DecidableEq, Repr

/-- The three callbacks the file passes to `g_signal_connect`. -/
inductive Callback where
  | _thumbnail_changed_cb
  | _notify_image_cb
  | _folder_label_clicked_cb
  deriving DecidableEq, Repr

/-- One connected signal handler: the object it is connected to, the signal,
the handler id `g_signal_connect` returned, and the callback. -/
structure Handler where
  inst : GObject
  detailed_signal : String
  handler_id : Nat
  c_handler : Callback
  deriving DecidableEq, Repr

/-- What the trace records: a run of `eom_metadata_sidebar_update`, and a
`g_object_notify` on the sidebar for the named property. -/
inductive Event where
  | update
  | notify (property_name : String)
  deriving DecidableEq, Repr

/-- The property ids of the enum at the top of the file. -/
def PROP_0 : Nat := 0

/-- Property id of `image`. -/
def PROP_IMAGE : Nat := 1

/-- Property id of `parent-window`. -/
def PROP_PARENT_WINDOW : Nat := 2

/-- A `GtkLabel` as far as the file touches it: the text or markup it shows,
whether that string is markup, and the tooltip of the widget. -/
structure GtkLabel where
  label : String
  use_markup : Bool
  tooltip_text : Option String
  deriving DecidableEq, Repr

/-- The result of `g_file_query_info` for the content type attribute. -/
structure GFileInfo where
  content_type : Option String
  deriving DecidableEq, Repr

/-- The EXIF tags the metadata section reads. -/
inductive ExifTag where
  | EXIF_TAG_FNUMBER
  | EXIF_TAG_EXPOSURE_TIME
  | EXIF_TAG_ISO_SPEED_RATINGS
  | EXIF_TAG_METERING_MODE
  | EXIF_TAG_MODEL
  | EXIF_TAG_DATE_TIME_ORIGINAL
  deriving DecidableEq, Repr

/-- The collaborators of the file, as they answer at the time of a call:
the image accessors, the GIO file queries, the GLib formatters and the EXIF
label helpers of `eom-exif-util`. -/
structure World where
  eom_image_get_size : EomImage → Int × Int
  eom_image_get_file : EomImage → GFile
  eom_image_get_bytes : EomImage → Int
  eom_image_get_exif_info : EomImage → Option ExifData
  eom_scroll_view_get_image : GObject → Option EomImage
  g_file_query_info : GFile → Option GFileInfo
  g_content_type_get_description : Option String → Option String
  g_format_size : Nat → String
  g_file_get_parent : GFile → Option GFile
  g_file_get_basename : GFile → String
  g_file_get_uri : GFile → String
  g_file_get_path : GFile → Option String
  g_markup_escape_text : String → String
  eom_exif_util_set_label_text : GtkLabel → Option ExifData → ExifTag → GtkLabel
  eom_exif_util_set_focal_length_label_text : GtkLabel → Option ExifData → GtkLabel
  eom_exif_util_format_datetime_label :
    GtkLabel → Option ExifData → ExifTag → String → GtkLabel

/-- The sidebar: the fields of `struct _EomMetadataSidebarPrivate`, followed by
the toolkit state its functions act on.  `handlers` are the handlers connected
by this file and still connected; `handler_seq` is the number of handler ids
handed out so far (GLib numbers handlers from 1, so the next id is
`handler_seq + 1`); `refs` are the references on images and windows taken and
not yet released; `trace` has the most recent event first. -/
structure EomMetadataSidebar where
  parent_window : Option EomWindow
  image : Option EomImage
  image_changed_id : Nat
  thumb_changed_id : Nat
  size_label : GtkLabel
  type_label : GtkLabel
  filesize_label : GtkLabel
  folder_label : GtkLabel
  aperture_label : GtkLabel
  exposure_label : GtkLabel
  focallen_label : GtkLabel
  iso_label : GtkLabel
  metering_label : GtkLabel
  model_label : GtkLabel
  date_label : GtkLabel
  time_label : GtkLabel
  handlers : List Handler
  handler_seq : Nat
  refs : List GObject
  trace : List Event
  deriving DecidableEq, Repr

/-! ## Toolkit primitives -/

/-- `gtk_label_set_text`: a null string shows as the empty text. -/
def gtk_label_set_text (l : GtkLabel) (str : Option String) : GtkLabel :=
  { l with label := str.getD "", use_markup := false }

/-- `gtk_label_set_markup`. -/
def gtk_label_set_markup (l : GtkLabel) (str : String) : GtkLabel :=
  { l with label := str, use_markup := true }

/-- `gtk_widget_set_tooltip_text`. -/
def gtk_widget_set_tooltip_text (l : GtkLabel) (str : Option String) : GtkLabel :=
  { l with tooltip_text := str }

/-- `g_object_ref`. -/
def g_object_ref (s : EomMetadataSidebar) (o : GObject) : EomMetadataSidebar :=
  { s with refs := o :: s.refs }

/-- `g_object_unref`: one reference on `o` is given back. -/
def g_object_unref (s : EomMetadataSidebar) (o : GObject) : EomMetadataSidebar :=
  { s with refs := s.refs.erase o }

/-- `g_object_notify` on the sidebar. -/
def g_object_notify (s : EomMetadataSidebar) (property_name : String) :
    EomMetadataSidebar :=
  { s with trace := Event.notify property_name :: s.trace }

/-- `g_signal_connect`: the handler is added and its id, never 0, returned. -/
def g_signal_connect (s : EomMetadataSidebar) (inst : GObject)
    (detailed_signal : String) (c_handler : Callback) : EomMetadataSidebar × Nat :=
  let id := s.handler_seq + 1
  ({ s with handlers := ⟨inst, detailed_signal, id, c_handler⟩ :: s.handlers,
            handler_seq := id }, id)

/-- `g_signal_handler_disconnect`: the handler with that id on that object is
removed; on a null object nothing happens. -/
def g_signal_handler_disconnect (s : EomMetadataSidebar) (inst : Option GObject)
    (handler_id : Nat) : EomMetadataSidebar :=
  { s with handlers :=
      s.handlers.filter (fun h => !(some h.inst == inst && h.handler_id == handler_id)) }

/-- Modelled from the spec: `ngettext` of the C library is not part of the
repository; in the untranslated locale it picks the singular form exactly
when the count is 1. -/
def ngettext (msgid msgid_plural : String) (n : Nat) : String :=
  if n = 1 then msgid else msgid_plural

/-- Modelled from the spec: `gettext` (the `_()` of the file) is not part of the
repository; in the untranslated locale it returns its argument. -/
def gettext (msgid : String) : String := msgid

/-- The conversion of a `gint` to the `unsigned long` parameter of `ngettext`. -/
def gint_to_gulong (i : Int) : Nat := (i % 2 ^ 64).toNat

/-- The conversion of a `goffset` to the `guint64` parameter of `g_format_size`. -/
def goffset_to_guint64 (i : Int) : Nat := (i % 2 ^ 64).toNat

/-- The `%i` conversions of a `printf` format, each replaced by the decimal
form of the next argument. -/
def printf_i : List Char → List Int → List Char
  | '%' :: 'i' :: cs, a :: as => (toString a).toList ++ printf_i cs as
  | c :: cs, as => c :: printf_i cs as
  | [], _ => []

/-- `g_strdup_printf` for a format with `%i` conversions. -/
def g_strdup_printf (format : String) (args : List Int) : String :=
  String.mk (printf_i format.toList args)

/-- The `%s` conversions of a format, each replaced by the escaped form of the
next argument. -/
def printf_s_escaped (esc : String → String) : List Char → List String → List Char
  | '%' :: 's' :: cs, a :: as => (esc a).toList ++ printf_s_escaped esc cs as
  | c :: cs, as => c :: printf_s_escaped esc cs as
  | [], _ => []

/-- `g_markup_printf_escaped` for a format with `%s` conversions. -/
def g_markup_printf_escaped (w : World) (format : String) (args : List String) : String :=
  String.mk (printf_s_escaped w.g_markup_escape_text format.toList args)

/-! ## The functions of the file -/

/-- `eom_metadata_sidebar_update_general_section` (lines 90 to 151). -/
def eom_metadata_sidebar_update_general_section (w : World) (s : EomMetadataSidebar) :
    EomMetadataSidebar :=
  match s.image with
  | none =>
    { s with size_label := gtk_label_set_text s.size_label none,
             type_label := gtk_label_set_text s.type_label none,
             filesize_label := gtk_label_set_text s.filesize_label none }
  | some img =>
    let width := (w.eom_image_get_size img).1
    let height := (w.eom_image_get_size img).2
    let str := g_strdup_printf
      (ngettext "%i × %i pixel" "%i × %i pixels" (gint_to_gulong height)) [width, height]
    let s := { s with size_label := gtk_label_set_text s.size_label (some str) }
    let file := w.eom_image_get_file img
    let str : Option String :=
      match w.g_file_query_info file with
      | none => some (gettext "Unknown")
      | some file_info => w.g_content_type_get_description file_info.content_type
    let s := { s with type_label := gtk_label_set_text s.type_label str }
    let bytes := w.eom_image_get_bytes img
    let str := w.g_format_size (goffset_to_guint64 bytes)
    let s := { s with filesize_label := gtk_label_set_text s.filesize_label (some str) }
    let parent_file :=
      match w.g_file_get_parent file with
      | none => file
      | some p => p
    let str := w.g_file_get_basename parent_file
    let str := g_markup_printf_escaped w "<a href=\"%s\">%s</a>"
      [w.g_file_get_uri parent_file, str]
    let s := { s with folder_label := gtk_label_set_markup s.folder_label str }
    let str := w.g_file_get_path parent_file
    { s with folder_label := gtk_widget_set_tooltip_text s.folder_label str }

/-- `eom_metadata_sidebar_update_metadata_section` (lines 154 to 198), in a
build with EXIF support. -/
def eom_metadata_sidebar_update_metadata_section (w : World) (s : EomMetadataSidebar) :
    EomMetadataSidebar :=
  let exif_data : Option ExifData :=
    match s.image with
    | some img => w.eom_image_get_exif_info img
    | none => none
  { s with
    aperture_label :=
      w.eom_exif_util_set_label_text s.aperture_label exif_data ExifTag.EXIF_TAG_FNUMBER,
    exposure_label :=
      w.eom_exif_util_set_label_text s.exposure_label exif_data
        ExifTag.EXIF_TAG_EXPOSURE_TIME,
    focallen_label :=
      w.eom_exif_util_set_focal_length_label_text s.focallen_label exif_data,
    iso_label :=
      w.eom_exif_util_set_label_text s.iso_label exif_data
        ExifTag.EXIF_TAG_ISO_SPEED_RATINGS,
    metering_label :=
      w.eom_exif_util_set_label_text s.metering_label exif_data
        ExifTag.EXIF_TAG_METERING_MODE,
    model_label :=
      w.eom_exif_util_set_label_text s.model_label exif_data ExifTag.EXIF_TAG_MODEL,
    date_label :=
      w.eom_exif_util_format_datetime_label s.date_label exif_data
        ExifTag.EXIF_TAG_DATE_TIME_ORIGINAL (gettext "%a, %d %B %Y"),
    time_label :=
      w.eom_exif_util_format_datetime_label s.time_label exif_data
        ExifTag.EXIF_TAG_DATE_TIME_ORIGINAL (gettext "%X") }

/-- `eom_metadata_sidebar_update` (lines 201 to 210); the call is recorded in
the trace. -/
def eom_metadata_sidebar_update (w : World) (s : EomMetadataSidebar) : EomMetadataSidebar :=
  let s := { s with trace := Event.update :: s.trace }
  let s := eom_metadata_sidebar_update_general_section w s
  eom_metadata_sidebar_update_metadata_section w s

/-- `_thumbnail_changed_cb` (lines 212 to 216). -/
def _thumbnail_changed_cb (w : World) (s : EomMetadataSidebar) : EomMetadataSidebar :=
  eom_metadata_sidebar_update w s

/-- `eom_metadata_sidebar_set_image` (lines 218 to 248). -/
def eom_metadata_sidebar_set_image (w : World) (s : EomMetadataSidebar)
    (image : Option EomImage) : EomMetadataSidebar :=
  if image = s.image then s
  else
    let s :=
      if s.thumb_changed_id ≠ 0 then
        { g_signal_handler_disconnect s (s.image.map GObject.image) s.thumb_changed_id with
          thumb_changed_id := 0 }
      else s
    let s :=
      match s.image with
      | some old => g_object_unref s (GObject.image old)
      | none => s
    let s := { s with image := image }
    let s :=
      match s.image with
      | some img =>
        let s := g_object_ref s (GObject.image img)
        let r := g_signal_connect s (GObject.image img) "thumbnail-changed"
          Callback._thumbnail_changed_cb
        let s := { r.1 with thumb_changed_id := r.2 }
        eom_metadata_sidebar_update w s
      | none => s
    g_object_notify s "image"

/-- `_notify_image_cb` (lines 250 to 265): `gobject` is the object that sent
`notify::image`; anything but a scroll view is turned away by the guard.  The
image comes with a reference of its own, given back at the end. -/
def _notify_image_cb (w : World) (s : EomMetadataSidebar) (gobject : GObject) :
    EomMetadataSidebar :=
  match gobject with
  | GObject.view _ =>
    let image := w.eom_scroll_view_get_image gobject
    let s :=
      match image with
      | some img => g_object_ref s (GObject.image img)
      | none => s
    let s := eom_metadata_sidebar_set_image w s image
    match image with
    | some img => g_object_unref s (GObject.image img)
    | none => s
  | _ => s

/-- `eom_metadata_sidebar_set_parent_window` (lines 292 to 312).  A null window
gives no reference, no view and no handler (id 0), as GLib answers on null. -/
def eom_metadata_sidebar_set_parent_window (w : World) (s : EomMetadataSidebar)
    (window : Option EomWindow) : EomMetadataSidebar :=
  if s.parent_window ≠ none then s
  else
    let s :=
      match window with
      | some win => g_object_ref s (GObject.window win)
      | none => s
    let s := { s with parent_window := window }
    let s := eom_metadata_sidebar_update w s
    let s :=
      match window with
      | some win =>
        let r := g_signal_connect s (GObject.view win) "notify::image"
          Callback._notify_image_cb
        { r.1 with image_changed_id := r.2 }
      | none => { s with image_changed_id := 0 }
    g_object_notify s "parent-window"

/-- `eom_metadata_sidebar_init` (lines 314 to 325): the private structure is
zeroed, the labels come from the widget template, and the link handler of the
folder label is connected.  `handler_seq` is what GLib has handed out before. -/
def eom_metadata_sidebar_init (template : GtkLabel) (handler_seq : Nat) :
    EomMetadataSidebar :=
  let s : EomMetadataSidebar :=
    { parent_window := none, image := none, image_changed_id := 0, thumb_changed_id := 0,
      size_label := template, type_label := template, filesize_label := template,
      folder_label := template, aperture_label := template, exposure_label := template,
      focallen_label := template, iso_label := template, metering_label := template,
      model_label := template, date_label := template, time_label := template,
      handlers := [], handler_seq := handler_seq, refs := [], trace := [] }
  (g_signal_connect s GObject.folder_label "activate-link"
    Callback._folder_label_clicked_cb).1

/-- `eom_metadata_sidebar_get_property` (lines 327 to 349): `value` is the
object the `GValue` holds before the call, the result the object it holds
after. -/
def eom_metadata_sidebar_get_property (s : EomMetadataSidebar) (property_id : Nat)
    (value : Option Nat) : Option Nat :=
  if property_id = PROP_IMAGE then s.image
  else if property_id = PROP_PARENT_WINDOW then s.parent_window
  else value

/-- `eom_metadata_sidebar_set_property` (lines 351 to 378). -/
def eom_metadata_sidebar_set_property (w : World) (s : EomMetadataSidebar)
    (property_id : Nat) (value : Option Nat) : EomMetadataSidebar :=
  if property_id = PROP_IMAGE then s
  else if property_id = PROP_PARENT_WINDOW then
    eom_metadata_sidebar_set_parent_window w s value
  else s

/-- The virtual functions `eom_metadata_sidebar_class_init` installs. -/
structure EomMetadataSidebarClass where
  get_property : Option (EomMetadataSidebar → Nat → Option Nat → Option Nat)
  set_property :
    Option (World → EomMetadataSidebar → Nat → Option Nat → EomMetadataSidebar)
  dispose : Option (EomMetadataSidebar → EomMetadataSidebar)

/-- `eom_metadata_sidebar_class_init` (lines 379 to 440): `get_property` and
`set_property` are set; the line that would set `dispose` is commented out. -/
def eom_metadata_sidebar_class_init : EomMetadataSidebarClass :=
  { get_property := some eom_metadata_sidebar_get_property,
    set_property := some eom_metadata_sidebar_set_property,
    dispose := none }

/-- Destruction of the widget: the `dispose` of the class runs if there is one.
The classes above it destroy the children of the template, so the handler
connected on the folder label goes with the label; they know nothing of the
private structure, nor of the handlers connected on other objects with the
sidebar as user data. -/
def destroy (klass : EomMetadataSidebarClass) (s : EomMetadataSidebar) :
    EomMetadataSidebar :=
  let s :=
    match klass.dispose with
    | some dispose => dispose s
    | none => s
  { s with handlers := s.handlers.filter (fun h => h.inst != GObject.folder_label) }

/-- `eom_metadata_sidebar_new` (lines 443 to 454): the instance is initialised and
the construct property `parent-window` set through `set_property`. -/
def eom_metadata_sidebar_new (w : World) (template : GtkLabel) (handler_seq : Nat)
    (window : EomWindow) : EomMetadataSidebar :=
  match eom_metadata_sidebar_class_init.set_property with
  | some set_property =>
    set_property w (eom_metadata_sidebar_init template handler_seq) PROP_PARENT_WINDOW
      (some window)
  | none => eom_metadata_sidebar_init template handler_seq

/-! ## Runs -/

/-- What can happen to a constructed sidebar: a call of
`eom_metadata_sidebar_set_image`, a run of `_notify_image_cb` for the object
that sent the notification, a run of `_thumbnail_changed_cb`. -/
inductive Action where
  | set_image (image : Option EomImage)
  | notify_image (gobject : GObject)
  | thumbnail_changed
  deriving DecidableEq, Repr

/-- One action, in the world as it is at that moment. -/
def step (s : EomMetadataSidebar) (wa : World × Action) : EomMetadataSidebar :=
  match wa.2 with
  | Action.set_image image => eom_metadata_sidebar_set_image wa.1 s image
  | Action.notify_image gobject => _notify_image_cb wa.1 s gobject
  | Action.thumbnail_changed => _thumbnail_changed_cb wa.1 s

/-- A sequence of actions, first to last. -/
def exec (s : EomMetadataSidebar) (steps : List (World × Action)) : EomMetadataSidebar :=
  steps.foldl step s

/-- The handlers connected to the content-changed signal of images. -/
def thumb_handlers (s : EomMetadataSidebar) : List Handler :=
  s.handlers.filter (fun h => h.detailed_signal == "thumbnail-changed")

/-- The handlers connected to the content-changed signal of one image. -/
def thumb_handlers_on (s : EomMetadataSidebar) (img : EomImage) : List Handler :=
  (thumb_handlers s).filter (fun h => h.inst == GObject.image img)

/-- The one handler a sidebar bound to `img` is to have on the content-changed
signal. -/
def thumb_handler (img : EomImage) (handler_id : Nat) : Handler :=
  ⟨GObject.image img, "thumbnail-changed", handler_id, Callback._thumbnail_changed_cb⟩

/-- The subscription invariant: with an image bound, `thumb_changed_id` is not 0
and the only content-changed handler is that one, on that image; with none
bound, `thumb_changed_id` is 0 and there is no content-changed handler. -/
def one_subscription (s : EomMetadataSidebar) : Prop :=
  match s.image with
  | some img => s.thumb_changed_id ≠ 0 ∧ thumb_handlers s = [thumb_handler img s.thumb_changed_id]
  | none => s.thumb_changed_id = 0 ∧ thumb_handlers s = []

/-- The size, type and filesize fields are blank. -/
def blank (s : EomMetadataSidebar) : Prop :=
  s.size_label.label = "" ∧ s.type_label.label = "" ∧ s.filesize_label.label = ""

/-- The size, type and filesize fields of `s` are what the general section
computes for `img` in the world `w`: running it again would change none. -/
def shows_values_of (w : World) (img : EomImage) (s : EomMetadataSidebar) : Prop :=
  s.size_label =
      (eom_metadata_sidebar_update_general_section w { s with image := some img }).size_label ∧
    s.type_label =
      (eom_metadata_sidebar_update_general_section w { s with image := some img }).type_label ∧
    s.filesize_label =
      (eom_metadata_sidebar_update_general_section w
        { s with image := some img }).filesize_label

/-- The number of runs of `eom_metadata_sidebar_update` so far. -/
def updates (s : EomMetadataSidebar) : Nat :=
  s.trace.count Event.update

/-- The fields of the state reached by `steps` from `s0` are the values last
computed, and computed for `img`: the run splits at a step taken in the world
`w` that ran an update and left `img` bound, no update has run after that
step, and the size, type and filesize fields of the final state are what the
general section computes for `img` in `w`. -/
def last_computed_for (s0 : EomMetadataSidebar) (steps : List (World × Action))
    (img : EomImage) : Prop :=
  ∃ pre w a post, steps = pre ++ (w, a) :: post ∧
    (exec s0 (pre ++ [(w, a)])).image = some img ∧
    updates (exec s0 pre) < updates (exec s0 (pre ++ [(w, a)])) ∧
    updates (exec s0 (pre ++ [(w, a)])) = updates (exec s0 steps) ∧
    shows_values_of w img (exec s0 steps)

/-- A state change either ran no update, and then left the three fields as they
were and the image as it was or unbound; or ran exactly one, and then the
fields are those computed in `w` for the image now bound, or blank if none is. -/
def step_kind (w : World) (s t : EomMetadataSidebar) : Prop :=
  (updates t = updates s ∧ t.size_label = s.size_label ∧ t.type_label = s.type_label ∧
      t.filesize_label = s.filesize_label ∧ (t.image = s.image ∨ t.image = none)) ∨
  (updates t = updates s + 1 ∧
    ((∃ img, t.image = some img ∧ shows_values_of w img t) ∨ (t.image = none ∧ blank t)))

/-! ## A concrete world -/

/-- An escaping function for the concrete world: the ampersand is escaped. -/
def escape_amp (x : String) : String :=
  String.mk (x.toList.flatMap (fun c => if c = '&' then "&amp;".toList else [c]))

/-- A world with three images.  Image 1 is 3 by 1 pixels, in `/pics/a.png`;
image 2 is 4 by 2 pixels, in a file whose info carries no content type;
image 3 is the root directory itself. -/
def w0 : World :=
  { eom_image_get_size := fun img => if img = 1 then (3, 1) else (4, 2),
    eom_image_get_file := fun img => if img = 1 then 10 else if img = 2 then 20 else 0,
    eom_image_get_bytes := fun img => if img = 1 then 2048 else 100,
    eom_image_get_exif_info := fun _ => none,
    eom_scroll_view_get_image := fun _ => some 1,
    g_file_query_info := fun f =>
      if f = 10 then some ⟨some "image/png"⟩ else if f = 20 then some ⟨none⟩ else none,
    g_content_type_get_description := fun t =>
      match t with
      | some x => some (x ++ " type")
      | none => none,
    g_format_size := fun n => toString n ++ " bytes",
    g_file_get_parent := fun f => if f = 10 ∨ f = 20 then some 11 else if f = 11 then some 0 else none,
    g_file_get_basename := fun f =>
      if f = 10 then "a.png" else if f = 20 then "b" else if f = 11 then "pics" else "/",
    g_file_get_uri := fun f =>
      if f = 10 then "file:///pics/a.png" else if f = 20 then "file:///pics/b"
      else if f = 11 then "file:///pics" else "file:///",
    g_file_get_path := fun f =>
      if f = 10 then some "/pics/a.png" else if f = 20 then some "/pics/b"
      else if f = 11 then some "/pics" else some "/",
    g_markup_escape_text := escape_amp,
    eom_exif_util_set_label_text := fun l _ _ => { l with label := "Unknown" },
    eom_exif_util_set_focal_length_label_text := fun l _ => { l with label := "Unknown" },
    eom_exif_util_format_datetime_label := fun l _ _ _ => { l with label := "Unknown" } }

/-- A label as the template might have it. -/
def template0 : GtkLabel := ⟨"label", false, none⟩

/-- A sidebar just constructed for window 7 in `w0`. -/
def s0 : EomMetadataSidebar := eom_metadata_sidebar_new w0 template0 0 7

/-- The sidebar `s0` after image 1 was bound. -/
def s1 : EomMetadataSidebar := eom_metadata_sidebar_set_image w0 s0 (some 1)

/-- The sidebar `s0` after image 2 was bound. -/
def s2 : EomMetadataSidebar := eom_metadata_sidebar_set_image w0 s0 (some 2)

/-- The sidebar `s0` after image 3 was bound. -/
def s3 : EomMetadataSidebar := eom_metadata_sidebar_set_image w0 s0 (some 3)

/-- The run that binds image 1 and then image 2. -/
def bind_twice : List (World × Action) :=
  [(w0, Action.set_image (some 1)), (w0, Action.notify_image (GObject.view 7)),
    (w0, Action.set_image (some 2))]

/-- The run that binds image 2 and then unbinds it. -/
def bind_then_unbind : List (World × Action) :=
  [(w0, Action.set_image (some 2)), (w0, Action.set_image none)]

/-! ## Lemmas on the primitives -/

theorem g_strdup_printf_singular (a b : Int) :
    g_strdup_printf "%i × %i pixel" [a, b] =
      toString a ++ " × " ++ toString b ++ " pixel" := by
  apply String.ext
  simp [g_strdup_printf, printf_i, String.toList]

theorem g_strdup_printf_plural (a b : Int) :
    g_strdup_printf "%i × %i pixels" [a, b] =
      toString a ++ " × " ++ toString b ++ " pixels" := by
  apply String.ext
  simp [g_strdup_printf, printf_i, String.toList]

theorem singular_ne_plural (x : String) : x ++ " pixel" ≠ x ++ " pixels" := by
  intro h
  have hl := congrArg String.length h
  simp at hl
  exact absurd hl (by decide)

theorem gint_to_gulong_eq_one (h : Int) (hlo : -2 ^ 31 ≤ h) (hhi : h < 2 ^ 31) :
    gint_to_gulong h = 1 ↔ h = 1 := by
  unfold gint_to_gulong
  constructor
  · intro e
    have hnn : (0 : Int) ≤ h % 2 ^ 64 := Int.emod_nonneg _ (by norm_num)
    have e1 : h % 2 ^ 64 = 1 := by omega
    omega
  · intro e
    subst e
    rfl

theorem g_markup_printf_escaped_link (w : World) (uri base : String) :
    g_markup_printf_escaped w "<a href=\"%s\">%s</a>" [uri, base] =
      "<a href=\"" ++ w.g_markup_escape_text uri ++ "\">" ++
        w.g_markup_escape_text base ++ "</a>" := by
  apply String.ext
  simp [g_markup_printf_escaped, printf_s_escaped, String.toList]

/-! ## What `eom_metadata_sidebar_update` leaves alone -/

@[simp]
theorem general_section_image (w : World) (s : EomMetadataSidebar) :
    (eom_metadata_sidebar_update_general_section w s).image = s.image := by
  unfold eom_metadata_sidebar_update_general_section
  split <;> rfl

@[simp]
theorem general_section_thumb_changed_id (w : World) (s : EomMetadataSidebar) :
    (eom_metadata_sidebar_update_general_section w s).thumb_changed_id =
      s.thumb_changed_id := by
  unfold eom_metadata_sidebar_update_general_section
  split <;> rfl

@[simp]
theorem general_section_handlers (w : World) (s : EomMetadataSidebar) :
    (eom_metadata_sidebar_update_general_section w s).handlers = s.handlers := by
  unfold eom_metadata_sidebar_update_general_section
  split <;> rfl

@[simp]
theorem general_section_trace (w : World) (s : EomMetadataSidebar) :
    (eom_metadata_sidebar_update_general_section w s).trace = s.trace := by
  unfold eom_metadata_sidebar_update_general_section
  split <;> rfl

@[simp]
theorem update_image (w : World) (s : EomMetadataSidebar) :
    (eom_metadata_sidebar_update w s).image = s.image := by
  simp [eom_metadata_sidebar_update, eom_metadata_sidebar_update_metadata_section]

@[simp]
theorem update_thumb_changed_id (w : World) (s : EomMetadataSidebar) :
    (eom_metadata_sidebar_update w s).thumb_changed_id = s.thumb_changed_id := by
  simp [eom_metadata_sidebar_update, eom_metadata_sidebar_update_metadata_section]

@[simp]
theorem update_handlers (w : World) (s : EomMetadataSidebar) :
    (eom_metadata_sidebar_update w s).handlers = s.handlers := by
  simp [eom_metadata_sidebar_update, eom_metadata_sidebar_update_metadata_section]

@[simp]
theorem update_trace (w : World) (s : EomMetadataSidebar) :
    (eom_metadata_sidebar_update w s).trace = Event.update :: s.trace := by
  simp [eom_metadata_sidebar_update, eom_metadata_sidebar_update_metadata_section]

@[simp]
theorem update_handler_seq (w : World) (s : EomMetadataSidebar) :
    (eom_metadata_sidebar_update w s).handler_seq = s.handler_seq := by
  cases h : s.image <;>
    simp [eom_metadata_sidebar_update, eom_metadata_sidebar_update_metadata_section,
      eom_metadata_sidebar_update_general_section, h]

@[simp]
theorem update_parent_window (w : World) (s : EomMetadataSidebar) :
    (eom_metadata_sidebar_update w s).parent_window = s.parent_window := by
  cases h : s.image <;>
    simp [eom_metadata_sidebar_update, eom_metadata_sidebar_update_metadata_section,
      eom_metadata_sidebar_update_general_section, h]

@[simp]
theorem update_image_changed_id (w : World) (s : EomMetadataSidebar) :
    (eom_metadata_sidebar_update w s).image_changed_id = s.image_changed_id := by
  cases h : s.image <;>
    simp [eom_metadata_sidebar_update, eom_metadata_sidebar_update_metadata_section,
      eom_metadata_sidebar_update_general_section, h]

@[simp]
theorem update_refs (w : World) (s : EomMetadataSidebar) :
    (eom_metadata_sidebar_update w s).refs = s.refs := by
  cases h : s.image <;>
    simp [eom_metadata_sidebar_update, eom_metadata_sidebar_update_metadata_section,
      eom_metadata_sidebar_update_general_section, h]

/-- The size label after a full update is the one the general section sets. -/
theorem update_size_label (w : World) (s : EomMetadataSidebar) :
    (eom_metadata_sidebar_update w s).size_label =
      (eom_metadata_sidebar_update_general_section w s).size_label := by
  cases h : s.image <;>
    simp [eom_metadata_sidebar_update, eom_metadata_sidebar_update_metadata_section,
      eom_metadata_sidebar_update_general_section, h]

theorem update_type_label (w : World) (s : EomMetadataSidebar) :
    (eom_metadata_sidebar_update w s).type_label =
      (eom_metadata_sidebar_update_general_section w s).type_label := by
  cases h : s.image <;>
    simp [eom_metadata_sidebar_update, eom_metadata_sidebar_update_metadata_section,
      eom_metadata_sidebar_update_general_section, h]

theorem update_filesize_label (w : World) (s : EomMetadataSidebar) :
    (eom_metadata_sidebar_update w s).filesize_label =
      (eom_metadata_sidebar_update_general_section w s).filesize_label := by
  cases h : s.image <;>
    simp [eom_metadata_sidebar_update, eom_metadata_sidebar_update_metadata_section,
      eom_metadata_sidebar_update_general_section, h]

theorem update_folder_label (w : World) (s : EomMetadataSidebar) :
    (eom_metadata_sidebar_update w s).folder_label =
      (eom_metadata_sidebar_update_general_section w s).folder_label := by
  cases h : s.image <;>
    simp [eom_metadata_sidebar_update, eom_metadata_sidebar_update_metadata_section,
      eom_metadata_sidebar_update_general_section, h]

/-! ## The claims on single calls -/

theorem set_image_of_eq (w : World) (s : EomMetadataSidebar)
    (x : Option EomImage) (hx : x = s.image) :
    eom_metadata_sidebar_set_image w s x = s := by
  simp [eom_metadata_sidebar_set_image, hx]

/-- C3: a call of `eom_metadata_sidebar_set_image` with an image reference
identical to the bound one (null included) changes nothing at all: the bound
image, the handler id and the connected handlers, the references held, every
label and the trace (so no update has run and no notification was sent) are
what they were. -/
theorem set_image_same_is_noop (w : World) (s : EomMetadataSidebar)
    (x : Option EomImage) (hx : x = s.image) :
    eom_metadata_sidebar_set_image w s x = s := by
  simp [eom_metadata_sidebar_set_image, hx]

/-- C4: for a bound image of width `width` and height `height`, an update
sets the size field to the singular phrase exactly when the height is 1, and
to the plural phrase for every other height, whatever the width. -/
theorem size_label_plural_on_height (w : World) (s : EomMetadataSidebar) (img : EomImage)
    (himg : s.image = some img)
    (hlo : -2 ^ 31 ≤ (w.eom_image_get_size img).2)
    (hhi : (w.eom_image_get_size img).2 < 2 ^ 31) :
    ((w.eom_image_get_size img).2 = 1 →
      (eom_metadata_sidebar_update w s).size_label.label =
        toString (w.eom_image_get_size img).1 ++ " × " ++
          toString (w.eom_image_get_size img).2 ++ " pixel") ∧
    ((w.eom_image_get_size img).2 ≠ 1 →
      (eom_metadata_sidebar_update w s).size_label.label =
        toString (w.eom_image_get_size img).1 ++ " × " ++
          toString (w.eom_image_get_size img).2 ++ " pixels") ∧
    ((eom_metadata_sidebar_update w s).size_label.label =
        toString (w.eom_image_get_size img).1 ++ " × " ++
          toString (w.eom_image_get_size img).2 ++ " pixel" ↔
      (w.eom_image_get_size img).2 = 1) := by
  have key : (eom_metadata_sidebar_update w s).size_label.label =
      g_strdup_printf
        (ngettext "%i × %i pixel" "%i × %i pixels"
          (gint_to_gulong (w.eom_image_get_size img).2))
        [(w.eom_image_get_size img).1, (w.eom_image_get_size img).2] := by
    rw [update_size_label]
    simp [eom_metadata_sidebar_update_general_section, himg, gtk_label_set_text]
  have h1 := gint_to_gulong_eq_one _ hlo hhi
  by_cases hh : (w.eom_image_get_size img).2 = 1
  · have e : gint_to_gulong (w.eom_image_get_size img).2 = 1 := h1.mpr hh
    rw [e] at key
    simp only [ngettext, if_true] at key
    rw [g_strdup_printf_singular] at key
    exact ⟨fun _ => key, fun hne => absurd hh hne, fun _ => hh, fun _ => key⟩
  · have e : gint_to_gulong (w.eom_image_get_size img).2 ≠ 1 := fun c => hh (h1.mp c)
    simp only [ngettext, if_neg e] at key
    rw [g_strdup_printf_plural] at key
    refine ⟨fun c => absurd c hh, fun _ => key, fun c => ?_, fun c => absurd c hh⟩
    rw [key] at c
    exact absurd c.symm (singular_ne_plural _)

/-- C5: with no image bound, the general section of an update (a total
function: it always returns) leaves the size, type and filesize fields blank
and the folder field as it was, markup and tooltip included. -/
theorem general_section_no_image (w : World) (s : EomMetadataSidebar)
    (himg : s.image = none) :
    (eom_metadata_sidebar_update_general_section w s).size_label.label = "" ∧
    (eom_metadata_sidebar_update_general_section w s).type_label.label = "" ∧
    (eom_metadata_sidebar_update_general_section w s).filesize_label.label = "" ∧
    (eom_metadata_sidebar_update_general_section w s).folder_label = s.folder_label ∧
    (eom_metadata_sidebar_update w s).folder_label = s.folder_label := by
  rw [update_folder_label]
  simp [eom_metadata_sidebar_update_general_section, himg, gtk_label_set_text]

/-- C7: for a bound image whose file has no parent directory, an update makes
the folder field a link with the escaped basename of the file itself as text
and its escaped URI as target, and the tooltip the path of the file itself;
for a file with a parent, basename, URI and path are those of the parent. -/
theorem folder_label_of_parent_or_self (w : World) (s : EomMetadataSidebar)
    (img : EomImage) (himg : s.image = some img) :
    (w.g_file_get_parent (w.eom_image_get_file img) = none →
      (eom_metadata_sidebar_update w s).folder_label =
        { label := "<a href=\"" ++
            w.g_markup_escape_text (w.g_file_get_uri (w.eom_image_get_file img)) ++ "\">" ++
            w.g_markup_escape_text (w.g_file_get_basename (w.eom_image_get_file img)) ++
            "</a>",
          use_markup := true,
          tooltip_text := w.g_file_get_path (w.eom_image_get_file img) }) ∧
    (∀ p, w.g_file_get_parent (w.eom_image_get_file img) = some p →
      (eom_metadata_sidebar_update w s).folder_label =
        { label := "<a href=\"" ++ w.g_markup_escape_text (w.g_file_get_uri p) ++ "\">" ++
            w.g_markup_escape_text (w.g_file_get_basename p) ++ "</a>",
          use_markup := true,
          tooltip_text := w.g_file_get_path p }) := by
  rw [update_folder_label]
  constructor
  · intro hp
    simp [eom_metadata_sidebar_update_general_section, himg, hp, gtk_label_set_markup,
      gtk_widget_set_tooltip_text, g_markup_printf_escaped_link]
  · intro p hp
    simp [eom_metadata_sidebar_update_general_section, himg, hp, gtk_label_set_markup,
      gtk_widget_set_tooltip_text, g_markup_printf_escaped_link]

/-! ## The subscription invariant -/

theorem one_subscription_congr {s t : EomMetadataSidebar} (hi : t.image = s.image)
    (ht : t.thumb_changed_id = s.thumb_changed_id) (hh : t.handlers = s.handlers)
    (h : one_subscription s) : one_subscription t := by
  unfold one_subscription thumb_handlers at *
  rw [hi, ht, hh]
  exact h

theorem thumb_handlers_disconnect (s : EomMetadataSidebar) (inst : Option GObject)
    (id : Nat) :
    thumb_handlers (g_signal_handler_disconnect s inst id) =
      (thumb_handlers s).filter
        (fun h => !(some h.inst == inst && h.handler_id == id)) := by
  simp [thumb_handlers, g_signal_handler_disconnect, List.filter_filter, Bool.and_comm]

theorem set_image_one_subscription (w : World) (s : EomMetadataSidebar)
    (image : Option EomImage) (h : one_subscription s) :
    one_subscription (eom_metadata_sidebar_set_image w s image) := by
  by_cases he : image = s.image
  · rw [set_image_of_eq w s image he]
    exact h
  · cases hold : s.image with
    | none =>
      rw [hold] at he
      cases image with
      | none => exact absurd rfl he
      | some img =>
        have h0 : s.thumb_changed_id = 0 ∧ thumb_handlers s = [] := by
          simpa [one_subscription, hold] using h
        have hf : List.filter (fun h => h.detailed_signal == "thumbnail-changed") s.handlers
            = [] := h0.2
        simp [eom_metadata_sidebar_set_image, hold, h0.1, one_subscription, g_object_notify,
          g_signal_connect, g_object_ref, thumb_handlers, thumb_handler, hf]
    | some old =>
      rw [hold] at he
      have h1 : s.thumb_changed_id ≠ 0 ∧
          thumb_handlers s = [thumb_handler old s.thumb_changed_id] := by
        simpa [one_subscription, hold] using h
      have hd : thumb_handlers
          (g_signal_handler_disconnect s (some (GObject.image old)) s.thumb_changed_id) = [] := by
        rw [thumb_handlers_disconnect, h1.2]
        simp [thumb_handler]
      have hf : ∀ a ∈ s.handlers, a.detailed_signal = "thumbnail-changed" →
          a.inst = GObject.image old ∧ a.handler_id = s.thumb_changed_id := by
        simpa [thumb_handlers, g_signal_handler_disconnect, List.filter_eq_nil_iff] using hd
      cases image with
      | none =>
        simp [eom_metadata_sidebar_set_image, hold, h1.1, one_subscription, g_object_notify,
          g_object_unref, thumb_handlers, g_signal_handler_disconnect]
        exact hf
      | some img =>
        have hne : ¬ img = old := fun c => he (by rw [c])
        simp [eom_metadata_sidebar_set_image, hold, hne, h1.1, one_subscription,
          g_object_notify, g_signal_connect, g_object_ref, g_object_unref, thumb_handlers,
          thumb_handler, g_signal_handler_disconnect]
        exact hf

theorem update_one_subscription (w : World) (s : EomMetadataSidebar)
    (h : one_subscription s) : one_subscription (eom_metadata_sidebar_update w s) :=
  one_subscription_congr (update_image w s) (update_thumb_changed_id w s)
    (update_handlers w s) h

theorem notify_image_cb_one_subscription (w : World) (s : EomMetadataSidebar)
    (gobject : GObject) (h : one_subscription s) :
    one_subscription (_notify_image_cb w s gobject) := by
  cases gobject with
  | view win =>
    simp only [_notify_image_cb]
    cases hv : w.eom_scroll_view_get_image (GObject.view win) with
    | none => exact set_image_one_subscription w s none h
    | some img =>
      have h1 : one_subscription (g_object_ref s (GObject.image img)) :=
        one_subscription_congr rfl rfl rfl h
      exact one_subscription_congr rfl rfl rfl
        (set_image_one_subscription w _ (some img) h1)
  | image _ => exact h
  | window _ => exact h
  | folder_label => exact h

theorem step_one_subscription (s : EomMetadataSidebar) (wa : World × Action)
    (h : one_subscription s) : one_subscription (step s wa) := by
  obtain ⟨w, a⟩ := wa
  cases a with
  | set_image image => exact set_image_one_subscription w s image h
  | notify_image gobject => exact notify_image_cb_one_subscription w s gobject h
  | thumbnail_changed => exact update_one_subscription w s h

theorem exec_one_subscription (steps : List (World × Action)) :
    ∀ s : EomMetadataSidebar, one_subscription s → one_subscription (exec s steps) := by
  induction steps with
  | nil => intro s h; exact h
  | cons wa rest ih =>
    intro s h
    exact ih (step s wa) (step_one_subscription s wa h)

theorem new_fields (w : World) (template : GtkLabel) (handler_seq : Nat)
    (window : EomWindow) :
    (eom_metadata_sidebar_new w template handler_seq window).image = none ∧
    (eom_metadata_sidebar_new w template handler_seq window).thumb_changed_id = 0 ∧
    (eom_metadata_sidebar_new w template handler_seq window).handlers =
      [⟨GObject.view window, "notify::image", handler_seq + 2, Callback._notify_image_cb⟩,
       ⟨GObject.folder_label, "activate-link", handler_seq + 1,
         Callback._folder_label_clicked_cb⟩] ∧
    (eom_metadata_sidebar_new w template handler_seq window).parent_window = some window ∧
    (eom_metadata_sidebar_new w template handler_seq window).image_changed_id =
      handler_seq + 2 ∧
    (eom_metadata_sidebar_new w template handler_seq window).refs = [GObject.window window] := by
  simp [eom_metadata_sidebar_new, eom_metadata_sidebar_class_init,
    eom_metadata_sidebar_set_property, PROP_IMAGE, PROP_PARENT_WINDOW,
    eom_metadata_sidebar_set_parent_window, eom_metadata_sidebar_init, g_signal_connect,
    g_object_notify, g_object_ref]

theorem new_one_subscription (w : World) (template : GtkLabel) (handler_seq : Nat)
    (window : EomWindow) :
    one_subscription (eom_metadata_sidebar_new w template handler_seq window) := by
  obtain ⟨hi, ht, hh, -⟩ := new_fields w template handler_seq window
  simp [one_subscription, hi, ht, thumb_handlers, hh]

/-! ## What a rebind does -/

theorem set_image_image (w : World) (s : EomMetadataSidebar) (image : Option EomImage) :
    (eom_metadata_sidebar_set_image w s image).image = image := by
  by_cases he : image = s.image
  · rw [set_image_of_eq w s image he, he]
  · cases image <;> cases hold : s.image <;> by_cases h0 : s.thumb_changed_id = 0 <;>
      simp_all [eom_metadata_sidebar_set_image, g_object_notify, g_signal_connect,
        g_object_ref, g_object_unref, g_signal_handler_disconnect]

theorem set_image_trace_some (w : World) (s : EomMetadataSidebar) (img : EomImage)
    (hne : s.image ≠ some img) :
    (eom_metadata_sidebar_set_image w s (some img)).trace =
      Event.notify "image" :: Event.update :: s.trace := by
  cases hold : s.image <;> by_cases h0 : s.thumb_changed_id = 0 <;>
    simp_all [eom_metadata_sidebar_set_image, g_object_notify, g_signal_connect,
      g_object_ref, g_object_unref, g_signal_handler_disconnect, eq_comm]

theorem set_image_trace_none (w : World) (s : EomMetadataSidebar)
    (hne : s.image ≠ none) :
    (eom_metadata_sidebar_set_image w s none).trace = Event.notify "image" :: s.trace := by
  cases hold : s.image <;> by_cases h0 : s.thumb_changed_id = 0 <;>
    simp_all [eom_metadata_sidebar_set_image, g_object_notify,
      g_object_unref, g_signal_handler_disconnect]

theorem thumb_handlers_on_of_one (s : EomMetadataSidebar) (img other : EomImage)
    (hs : thumb_handlers s = [thumb_handler img s.thumb_changed_id]) :
    thumb_handlers_on s other = if other = img then [thumb_handler img s.thumb_changed_id]
      else [] := by
  by_cases h : other = img
  · simp [thumb_handlers_on, hs, thumb_handler, h]
  · have h2 : ¬ img = other := fun c => h c.symm
    simp [thumb_handlers_on, hs, thumb_handler, h, h2]

/-! ## The claims on runs -/

/-- C1: in every state reached from a freshly constructed sidebar by calls of
`eom_metadata_sidebar_set_image` (null, repeated or distinct images), runs of
`_notify_image_cb` and runs of `_thumbnail_changed_cb`, there is at most one
content-changed handler: with an image bound, `thumb_changed_id` is not 0, the
one handler is that one on the bound image, and no other image has one; with
no image bound, `thumb_changed_id` is 0 and there is none at all. -/
theorem at_most_one_thumbnail_subscription (w : World) (template : GtkLabel)
    (handler_seq : Nat) (window : EomWindow) (steps : List (World × Action)) :
    (∀ img, (exec (eom_metadata_sidebar_new w template handler_seq window) steps).image =
        some img →
      (exec (eom_metadata_sidebar_new w template handler_seq window) steps).thumb_changed_id
          ≠ 0 ∧
        thumb_handlers (exec (eom_metadata_sidebar_new w template handler_seq window) steps) =
          [thumb_handler img
            (exec (eom_metadata_sidebar_new w template handler_seq window)
              steps).thumb_changed_id] ∧
        ∀ other, other ≠ img →
          thumb_handlers_on (exec (eom_metadata_sidebar_new w template handler_seq window) steps)
            other = []) ∧
    ((exec (eom_metadata_sidebar_new w template handler_seq window) steps).image = none →
      (exec (eom_metadata_sidebar_new w template handler_seq window) steps).thumb_changed_id
          = 0 ∧
        thumb_handlers (exec (eom_metadata_sidebar_new w template handler_seq window) steps) =
          []) := by
  have h := exec_one_subscription steps _ (new_one_subscription w template handler_seq window)
  generalize exec (eom_metadata_sidebar_new w template handler_seq window) steps = s at h
  constructor
  · intro img hi
    have h1 : s.thumb_changed_id ≠ 0 ∧
        thumb_handlers s = [thumb_handler img s.thumb_changed_id] := by
      simpa [one_subscription, hi] using h
    refine ⟨h1.1, h1.2, fun other ho => ?_⟩
    rw [thumb_handlers_on_of_one s img other h1.2, if_neg ho]
  · intro hi
    simpa [one_subscription, hi] using h

/-- C2: for distinct images `a` and `b`, after
`eom_metadata_sidebar_set_image` with `a` and then with `b` on a sidebar in
any reachable state, `b` is bound, the only content-changed handler is the
one on `b`, `a` has none, and the second call has run
`eom_metadata_sidebar_update` exactly once, inside the call and before the
notification it ends with. -/
theorem rebind_moves_the_subscription (w : World) (template : GtkLabel)
    (handler_seq : Nat) (window : EomWindow) (steps : List (World × Action))
    (w1 w2 : World) (a b : EomImage) (hab : a ≠ b) :
    (eom_metadata_sidebar_set_image w2
      (eom_metadata_sidebar_set_image w1
        (exec (eom_metadata_sidebar_new w template handler_seq window) steps) (some a))
      (some b)).image = some b ∧
    thumb_handlers (eom_metadata_sidebar_set_image w2
      (eom_metadata_sidebar_set_image w1
        (exec (eom_metadata_sidebar_new w template handler_seq window) steps) (some a))
      (some b)) =
      [thumb_handler b (eom_metadata_sidebar_set_image w2
        (eom_metadata_sidebar_set_image w1
          (exec (eom_metadata_sidebar_new w template handler_seq window) steps) (some a))
        (some b)).thumb_changed_id] ∧
    (thumb_handlers_on (eom_metadata_sidebar_set_image w2
      (eom_metadata_sidebar_set_image w1
        (exec (eom_metadata_sidebar_new w template handler_seq window) steps) (some a))
      (some b)) b).length = 1 ∧
    thumb_handlers_on (eom_metadata_sidebar_set_image w2
      (eom_metadata_sidebar_set_image w1
        (exec (eom_metadata_sidebar_new w template handler_seq window) steps) (some a))
      (some b)) a = [] ∧
    (eom_metadata_sidebar_set_image w2
      (eom_metadata_sidebar_set_image w1
        (exec (eom_metadata_sidebar_new w template handler_seq window) steps) (some a))
      (some b)).trace =
      Event.notify "image" :: Event.update ::
        (eom_metadata_sidebar_set_image w1
          (exec (eom_metadata_sidebar_new w template handler_seq window) steps)
          (some a)).trace ∧
    updates (eom_metadata_sidebar_set_image w2
      (eom_metadata_sidebar_set_image w1
        (exec (eom_metadata_sidebar_new w template handler_seq window) steps) (some a))
      (some b)) =
      updates (eom_metadata_sidebar_set_image w1
        (exec (eom_metadata_sidebar_new w template handler_seq window) steps) (some a)) + 1 := by
  have h := exec_one_subscription steps _ (new_one_subscription w template handler_seq window)
  generalize exec (eom_metadata_sidebar_new w template handler_seq window) steps = s at h
  have h1 := set_image_one_subscription w1 s (some a) h
  have i1 := set_image_image w1 s (some a)
  generalize eom_metadata_sidebar_set_image w1 s (some a) = s1 at h1 i1
  have h2 := set_image_one_subscription w2 s1 (some b) h1
  have i2 := set_image_image w2 s1 (some b)
  have hne : s1.image ≠ some b := by
    rw [i1]
    intro c
    exact hab (Option.some.inj c)
  have t2 := set_image_trace_some w2 s1 b hne
  generalize eom_metadata_sidebar_set_image w2 s1 (some b) = s2 at h2 i2 t2
  have hs : s2.thumb_changed_id ≠ 0 ∧
      thumb_handlers s2 = [thumb_handler b s2.thumb_changed_id] := by
    simpa [one_subscription, i2] using h2
  refine ⟨i2, hs.2, ?_, ?_, t2, ?_⟩
  · rw [thumb_handlers_on_of_one s2 b b hs.2]
    simp
  · rw [thumb_handlers_on_of_one s2 b a hs.2, if_neg hab]
  · simp [updates, t2]

/-! ## The display fields along a run -/

theorem shows_values_of_congr {w : World} {img : EomImage} {s t : EomMetadataSidebar}
    (h1 : t.size_label = s.size_label) (h2 : t.type_label = s.type_label)
    (h3 : t.filesize_label = s.filesize_label) (h : shows_values_of w img s) :
    shows_values_of w img t := by
  simp only [shows_values_of, eom_metadata_sidebar_update_general_section] at h ⊢
  rw [h1, h2, h3]
  exact h

theorem blank_congr {s t : EomMetadataSidebar}
    (h1 : t.size_label = s.size_label) (h2 : t.type_label = s.type_label)
    (h3 : t.filesize_label = s.filesize_label) (h : blank s) : blank t := by
  simp only [blank] at h ⊢
  rw [h1, h2, h3]
  exact h

theorem update_shows_values_of (w : World) (s : EomMetadataSidebar) (img : EomImage)
    (hi : s.image = some img) : shows_values_of w img (eom_metadata_sidebar_update w s) := by
  simp only [shows_values_of]
  rw [update_size_label, update_type_label, update_filesize_label]
  simp [eom_metadata_sidebar_update_general_section, hi, gtk_label_set_text]

theorem update_blank (w : World) (s : EomMetadataSidebar) (hi : s.image = none) :
    blank (eom_metadata_sidebar_update w s) := by
  simp only [blank]
  rw [update_size_label, update_type_label, update_filesize_label]
  simp [eom_metadata_sidebar_update_general_section, hi, gtk_label_set_text]

theorem updates_update (w : World) (s : EomMetadataSidebar) :
    updates (eom_metadata_sidebar_update w s) = updates s + 1 := by
  simp [updates]

theorem set_image_some_eq (w : World) (s : EomMetadataSidebar) (img : EomImage)
    (hne : s.image ≠ some img) :
    ∃ t : EomMetadataSidebar, t.image = some img ∧
      eom_metadata_sidebar_set_image w s (some img) =
        g_object_notify (eom_metadata_sidebar_update w t) "image" := by
  unfold eom_metadata_sidebar_set_image
  rw [if_neg (fun c => hne c.symm)]
  refine ⟨_, ?_, rfl⟩
  rfl

theorem set_image_none_labels (w : World) (s : EomMetadataSidebar) :
    (eom_metadata_sidebar_set_image w s none).size_label = s.size_label ∧
    (eom_metadata_sidebar_set_image w s none).type_label = s.type_label ∧
    (eom_metadata_sidebar_set_image w s none).filesize_label = s.filesize_label := by
  cases hold : s.image <;> by_cases h0 : s.thumb_changed_id = 0 <;>
    simp_all [eom_metadata_sidebar_set_image, g_object_notify,
      g_object_unref, g_signal_handler_disconnect]

theorem set_image_step_kind (w : World) (s : EomMetadataSidebar) (image : Option EomImage) :
    step_kind w s (eom_metadata_sidebar_set_image w s image) := by
  by_cases he : image = s.image
  · rw [set_image_of_eq w s image he]
    exact Or.inl ⟨rfl, rfl, rfl, rfl, Or.inl rfl⟩
  · cases image with
    | none =>
      obtain ⟨l1, l2, l3⟩ := set_image_none_labels w s
      have ht := set_image_trace_none w s (fun c => he c.symm)
      refine Or.inl ⟨?_, l1, l2, l3, Or.inr (set_image_image w s none)⟩
      simp [updates, ht]
    | some img =>
      have hne : s.image ≠ some img := fun c => he c.symm
      have ht := set_image_trace_some w s img hne
      obtain ⟨t, hti, hte⟩ := set_image_some_eq w s img hne
      refine Or.inr ⟨?_, Or.inl ⟨img, set_image_image w s (some img), ?_⟩⟩
      · simp [updates, ht]
      · rw [hte]
        exact shows_values_of_congr rfl rfl rfl (update_shows_values_of w t img hti)

theorem step_step_kind (s : EomMetadataSidebar) (wa : World × Action) :
    step_kind wa.1 s (step s wa) := by
  obtain ⟨w, a⟩ := wa
  cases a with
  | set_image image => exact set_image_step_kind w s image
  | notify_image gobject =>
    cases gobject with
    | view win =>
      simp only [step, _notify_image_cb]
      cases hv : w.eom_scroll_view_get_image (GObject.view win) with
      | none => exact set_image_step_kind w s none
      | some img =>
        rcases set_image_step_kind w (g_object_ref s (GObject.image img)) (some img) with
          ⟨h1, h2, h3, h4, h5⟩ | ⟨h1, h2⟩
        · exact Or.inl ⟨h1, h2, h3, h4, h5⟩
        · refine Or.inr ⟨h1, ?_⟩
          rcases h2 with ⟨i, hi, hs⟩ | ⟨hi, hb⟩
          · exact Or.inl ⟨i, hi, shows_values_of_congr rfl rfl rfl hs⟩
          · exact Or.inr ⟨hi, blank_congr rfl rfl rfl hb⟩
    | image _ => exact Or.inl ⟨rfl, rfl, rfl, rfl, Or.inl rfl⟩
    | window _ => exact Or.inl ⟨rfl, rfl, rfl, rfl, Or.inl rfl⟩
    | folder_label => exact Or.inl ⟨rfl, rfl, rfl, rfl, Or.inl rfl⟩
  | thumbnail_changed =>
    refine Or.inr ⟨updates_update w s, ?_⟩
    cases hi : s.image with
    | none => exact Or.inr ⟨(update_image w s).trans hi, update_blank w s hi⟩
    | some img =>
      exact Or.inl ⟨img, (update_image w s).trans hi, update_shows_values_of w s img hi⟩

theorem exec_append_one (s : EomMetadataSidebar) (steps : List (World × Action))
    (wa : World × Action) : exec s (steps ++ [wa]) = step (exec s steps) wa := by
  simp [exec, List.foldl_append]

theorem last_computed_for_extend (s0 : EomMetadataSidebar) (steps : List (World × Action))
    (wa : World × Action) (img : EomImage)
    (hu : updates (step (exec s0 steps) wa) = updates (exec s0 steps))
    (h1 : (step (exec s0 steps) wa).size_label = (exec s0 steps).size_label)
    (h2 : (step (exec s0 steps) wa).type_label = (exec s0 steps).type_label)
    (h3 : (step (exec s0 steps) wa).filesize_label = (exec s0 steps).filesize_label)
    (h : last_computed_for s0 steps img) : last_computed_for s0 (steps ++ [wa]) img := by
  obtain ⟨pre, w, a, post, hsplit, hi, hlt, heq, hs⟩ := h
  refine ⟨pre, w, a, post ++ [wa], ?_, hi, hlt, ?_, ?_⟩
  · rw [hsplit]
    simp
  · rw [exec_append_one s0 steps wa, hu]
    exact heq
  · rw [exec_append_one s0 steps wa]
    exact shows_values_of_congr h1 h2 h3 hs

theorem fields_along_run (s0 : EomMetadataSidebar) (hs0 : s0.image = none) (hb : blank s0)
    (steps : List (World × Action)) :
    (∀ img, (exec s0 steps).image = some img → last_computed_for s0 steps img) ∧
    ((exec s0 steps).image = none →
      blank (exec s0 steps) ∨ ∃ img, last_computed_for s0 steps img) := by
  induction steps using List.reverseRecOn with
  | nil =>
    refine ⟨fun img hi => ?_, fun _ => Or.inl hb⟩
    simp [exec, hs0] at hi
  | append_singleton steps wa ih =>
    obtain ⟨ih1, ih2⟩ := ih
    have hk := step_step_kind (exec s0 steps) wa
    rcases hk with ⟨hu, h1, h2, h3, hi⟩ | ⟨hu, hk⟩
    · constructor
      · intro img himg
        rw [exec_append_one] at himg
        rcases hi with hi | hi
        · rw [hi] at himg
          exact last_computed_for_extend s0 steps wa img hu h1 h2 h3 (ih1 img himg)
        · rw [hi] at himg
          exact absurd himg (by simp)
      · intro _
        cases hprev : (exec s0 steps).image with
        | none =>
          rcases ih2 hprev with hbl | ⟨img, hl⟩
          · left
            rw [exec_append_one]
            exact blank_congr h1 h2 h3 hbl
          · right
            exact ⟨img, last_computed_for_extend s0 steps wa img hu h1 h2 h3 hl⟩
        | some img =>
          right
          exact ⟨img, last_computed_for_extend s0 steps wa img hu h1 h2 h3 (ih1 img hprev)⟩
    · have hnew : ∀ img, (step (exec s0 steps) wa).image = some img →
          shows_values_of wa.1 img (step (exec s0 steps) wa) →
          last_computed_for s0 (steps ++ [wa]) img := by
        intro img himg hs
        refine ⟨steps, wa.1, wa.2, [], rfl, ?_, ?_, rfl, ?_⟩
        · rw [exec_append_one]
          exact himg
        · rw [exec_append_one, hu]
          exact Nat.lt_succ_self _
        · rw [exec_append_one]
          exact hs
      constructor
      · intro img himg
        rw [exec_append_one] at himg
        rcases hk with ⟨i, hi, hs⟩ | ⟨hi, _⟩
        · rw [hi] at himg
          obtain rfl : i = img := Option.some.inj himg
          exact hnew i hi hs
        · rw [hi] at himg
          exact absurd himg (by simp)
      · intro hnone
        rw [exec_append_one] at hnone
        rcases hk with ⟨i, hi, _⟩ | ⟨_, hbl⟩
        · rw [hi] at hnone
          exact absurd hnone (by simp)
        · left
          rw [exec_append_one]
          exact hbl

/-- C8, as amended: in every state reached from a freshly constructed sidebar,
with an image bound the size, type and filesize fields are the values last
computed, and computed for that image; with no image bound they are blank or
are still the values last computed for an image bound earlier. -/
theorem fields_reflect_last_update (w : World) (template : GtkLabel)
    (handler_seq : Nat) (window : EomWindow) (steps : List (World × Action)) :
    (∀ img, (exec (eom_metadata_sidebar_new w template handler_seq window) steps).image =
        some img →
      last_computed_for (eom_metadata_sidebar_new w template handler_seq window) steps img) ∧
    ((exec (eom_metadata_sidebar_new w template handler_seq window) steps).image = none →
      blank (exec (eom_metadata_sidebar_new w template handler_seq window) steps) ∨
      ∃ img,
        last_computed_for (eom_metadata_sidebar_new w template handler_seq window) steps
          img) := by
  apply fields_along_run
  · exact (new_fields w template handler_seq window).1
  · simp [blank, eom_metadata_sidebar_new, eom_metadata_sidebar_class_init,
      eom_metadata_sidebar_set_property, PROP_IMAGE, PROP_PARENT_WINDOW,
      eom_metadata_sidebar_set_parent_window, eom_metadata_sidebar_init, g_signal_connect,
      g_object_notify, g_object_ref, update_size_label, update_type_label,
      update_filesize_label, eom_metadata_sidebar_update_general_section, gtk_label_set_text]

/-- C8, as stated, fails: after image 2 was bound and then unbound, no image is
bound and the fields still show the values of image 2. -/
theorem fields_stale_after_unbind :
    (exec s0 bind_then_unbind).image = none ∧
    (exec s0 bind_then_unbind).size_label.label = "4 × 2 pixels" ∧
    (exec s0 bind_then_unbind).filesize_label.label = "100 bytes" ∧
    ¬ blank (exec s0 bind_then_unbind) := by
  refine ⟨by decide, by decide, by decide, ?_⟩
  intro h
  exact absurd h.1 (by decide)

/-! ## Where the file falls short of the specification -/

theorem type_label_unknown_when_query_fails (w : World) (s : EomMetadataSidebar)
    (img : EomImage) (himg : s.image = some img)
    (hq : w.g_file_query_info (w.eom_image_get_file img) = none) :
    (eom_metadata_sidebar_update w s).type_label.label = gettext "Unknown" := by
  rw [update_type_label]
  simp [eom_metadata_sidebar_update_general_section, himg, hq, gtk_label_set_text]

theorem type_label_blank_when_no_description (w : World) (s : EomMetadataSidebar)
    (img : EomImage) (info : GFileInfo) (himg : s.image = some img)
    (hq : w.g_file_query_info (w.eom_image_get_file img) = some info)
    (hd : w.g_content_type_get_description info.content_type = none) :
    (eom_metadata_sidebar_update w s).type_label.label = "" := by
  rw [update_type_label]
  simp [eom_metadata_sidebar_update_general_section, himg, hq, hd, gtk_label_set_text]

/-- C6: the file of image 2 has file info that carries no content type, and no
description comes back for it; an update with image 2 bound leaves the type
field blank, not the "Unknown" placeholder the branch for a failed query
sets. -/
theorem type_label_blank_without_content_type :
    s2.image = some 2 ∧
    w0.g_file_query_info (w0.eom_image_get_file 2) = some ⟨none⟩ ∧
    w0.g_content_type_get_description none = none ∧
    (eom_metadata_sidebar_update w0 s2).type_label.label = "" ∧
    (eom_metadata_sidebar_update w0 s2).type_label.label ≠ gettext "Unknown" := by
  refine ⟨by decide, by decide, by decide, by decide, by decide⟩

theorem set_property_image_ignored (w : World) (s : EomMetadataSidebar)
    (value : Option Nat) :
    eom_metadata_sidebar_set_property w s PROP_IMAGE value = s := by
  simp [eom_metadata_sidebar_set_property]

/-- C9: writing image 1 to the `image` property of a fresh sidebar changes
nothing: the sidebar is what it was, reading the property back gives null, and
no update has run. -/
theorem image_property_write_is_dropped :
    eom_metadata_sidebar_set_property w0 s0 PROP_IMAGE (some 1) = s0 ∧
    eom_metadata_sidebar_get_property
      (eom_metadata_sidebar_set_property w0 s0 PROP_IMAGE (some 1)) PROP_IMAGE none = none ∧
    updates (eom_metadata_sidebar_set_property w0 s0 PROP_IMAGE (some 1)) = updates s0 ∧
    eom_metadata_sidebar_get_property s1 PROP_IMAGE none = some 1 := by
  refine ⟨by decide, by decide, by decide, by decide⟩

theorem destroy_keeps_references (s : EomMetadataSidebar) :
    (destroy eom_metadata_sidebar_class_init s).refs = s.refs ∧
    (destroy eom_metadata_sidebar_class_init s).image = s.image ∧
    (destroy eom_metadata_sidebar_class_init s).parent_window = s.parent_window ∧
    (destroy eom_metadata_sidebar_class_init s).handlers =
      s.handlers.filter (fun h => h.inst != GObject.folder_label) :=
  ⟨rfl, rfl, rfl, rfl⟩

/-- C10: destroying the sidebar built for window 7 with image 1 bound gives back
no reference and disconnects neither subscription: the references on the image
and on the window are still held, and the handlers on the image and on the
view are still connected. -/
theorem destroy_releases_nothing :
    (destroy eom_metadata_sidebar_class_init s1).refs =
      [GObject.image 1, GObject.window 7] ∧
    (destroy eom_metadata_sidebar_class_init s1).handlers =
      [⟨GObject.image 1, "thumbnail-changed", 3, Callback._thumbnail_changed_cb⟩,
       ⟨GObject.view 7, "notify::image", 2, Callback._notify_image_cb⟩] ∧
    (destroy eom_metadata_sidebar_class_init s1).thumb_changed_id = 3 ∧
    (destroy eom_metadata_sidebar_class_init s1).image_changed_id = 2 := by
  refine ⟨by decide, by decide, by decide, by decide⟩

/-! ## The claims at concrete inputs -/

theorem rebind_moves_the_subscription_witness :
    (1 : EomImage) ≠ 2 ∧
    (eom_metadata_sidebar_set_image w0 (eom_metadata_sidebar_set_image w0 (exec s0 []) (some 1))
      (some 2)).image = some 2 ∧
    thumb_handlers_on
      (eom_metadata_sidebar_set_image w0
        (eom_metadata_sidebar_set_image w0 (exec s0 []) (some 1)) (some 2)) 1 = [] :=
  ⟨by decide,
    (rebind_moves_the_subscription w0 template0 0 7 [] w0 w0 1 2 (by decide)).1,
    (rebind_moves_the_subscription w0 template0 0 7 [] w0 w0 1 2 (by decide)).2.2.2.1⟩

theorem set_image_same_is_noop_witness :
    some 1 = s1.image ∧ eom_metadata_sidebar_set_image w0 s1 (some 1) = s1 :=
  ⟨by decide, set_image_same_is_noop w0 s1 (some 1) (by decide)⟩

theorem size_label_plural_on_height_witness :
    s1.image = some 1 ∧ w0.eom_image_get_size 1 = (3, 1) ∧
    (eom_metadata_sidebar_update w0 s1).size_label.label = "3 × 1 pixel" ∧
    s2.image = some 2 ∧ w0.eom_image_get_size 2 = (4, 2) ∧
    (eom_metadata_sidebar_update w0 s2).size_label.label = "4 × 2 pixels" :=
  ⟨by decide, by decide,
    (size_label_plural_on_height w0 s1 1 (by decide) (by decide) (by decide)).1 (by decide),
    by decide, by decide,
    (size_label_plural_on_height w0 s2 2 (by decide) (by decide) (by decide)).2.1
      (by decide)⟩

theorem general_section_no_image_witness :
    s0.image = none ∧
    (eom_metadata_sidebar_update_general_section w0 s0).size_label.label = "" ∧
    (eom_metadata_sidebar_update_general_section w0 s0).folder_label = template0 :=
  ⟨by decide, (general_section_no_image w0 s0 (by decide)).1,
    (general_section_no_image w0 s0 (by decide)).2.2.2.1⟩

theorem folder_label_of_parent_or_self_witness :
    s3.image = some 3 ∧ w0.g_file_get_parent (w0.eom_image_get_file 3) = none ∧
    (eom_metadata_sidebar_update w0 s3).folder_label =
      { label := "<a href=\"file:///\">/</a>", use_markup := true, tooltip_text := some "/" } :=
  ⟨by decide, by decide,
    (folder_label_of_parent_or_self w0 s3 3 (by decide)).1 (by decide)⟩

theorem at_most_one_thumbnail_subscription_witness :
    (exec s0 bind_twice).image = some 2 ∧
    (exec s0 bind_twice).thumb_changed_id ≠ 0 ∧
    thumb_handlers (exec s0 bind_twice) = [thumb_handler 2 4] ∧
    thumb_handlers_on (exec s0 bind_twice) 1 = [] :=
  ⟨by decide,
    ((at_most_one_thumbnail_subscription w0 template0 0 7 bind_twice).1 2 (by decide)).1,
    ((at_most_one_thumbnail_subscription w0 template0 0 7 bind_twice).1 2 (by decide)).2.1,
    ((at_most_one_thumbnail_subscription w0 template0 0 7 bind_twice).1 2 (by decide)).2.2 1
      (by decide)⟩

theorem fields_reflect_last_update_witness :
    (exec s0 bind_twice).image = some 2 ∧ last_computed_for s0 bind_twice 2 ∧
    (exec s0 bind_twice).size_label.label = "4 × 2 pixels" :=
  ⟨by decide, (fields_reflect_last_update w0 template0 0 7 bind_twice).1 2 (by decide),
    by decide⟩

end Eom
